import Mathlib

/-!
Verification of the multi-agent swarm orchestration core of the
sample-agentic-chatbot-accelerator repository
(lib/agent-core/docker-swarm: app.py, src/factory.py, src/runner.py,
src/data_source.py, src/constants.py).

The Python code is shallowly embedded: pydantic models become structures,
dictionaries become association lists (insertion order preserved, first
binding wins on lookup, as in CPython), fallible code returns Option or
Except, and the async token stream becomes a list of events processed in
order.  Where the repository delegates to the external strands library
(the Swarm execution loop) or where a module is not part of the source
snapshot (docker-swarm/src/types.py, whose behaviour is only visible
through tests/test_types.py), the definition is modelled from the spec and
says so in its doc comment.
-/

/-- Association-list lookup modelling Python `dict.get`: the first binding
for the key wins (keys of a Python dict are unique, so this is exact). -/
def dictGet {α : Type} (m : List (String × α)) (k : String) : Option α :=
  match m.find? (fun kv => kv.fst == k) with
  | some kv => some kv.snd
  | none => none

/-- Key sequence of a Python dict built by repeated `d[k] = v` assignment:
first-occurrence order, later duplicates do not add a key. -/
def pyDictKeys : List String → List String
  | [] => []
  | n :: rest => n :: (pyDictKeys rest).filter (fun m => !(m == n))

/-- The Python `for`-loop that applies a fallible operation to every element
and collects the results, stopping at the first failure (exception). -/
def mapExcept {ε α β : Type} (f : α → Except ε β) : List α → Except ε (List β)
  | [] => .ok []
  | a :: l =>
    match f a with
    | .error e => .error e
    | .ok b =>
      match mapExcept f l with
      | .error e => .error e
      | .ok bs => .ok (b :: bs)

/-- The Python `for`-loop that applies an operation that may raise `KeyError`
(modelled as `Option`) to every element, collecting the results. -/
def mapOption {α β : Type} (f : α → Option β) : List α → Option (List β)
  | [] => some []
  | a :: l =>
    match f a with
    | none => none
    | some b =>
      match mapOption f l with
      | none => none
      | some bs => some (b :: bs)

/-! ## Constants (src/constants.py) -/

def DEFAULT_MAX_HANDOFFS : Nat := 20

def DEFAULT_MAX_ITERATIONS : Nat := 20

/-- 900.0 seconds in the source; the model uses whole seconds. -/
def DEFAULT_EXECUTION_TIMEOUT : Nat := 900

/-- 300.0 seconds in the source; the model uses whole seconds. -/
def DEFAULT_NODE_TIMEOUT : Nat := 300

def DEFAULT_REPETITIVE_HANDOFF_DETECTION_WINDOW : Nat := 8

def DEFAULT_REPETITIVE_HANDOFF_MIN_UNIQUE_AGENTS : Nat := 3

/-! ## Configuration types (docker-swarm/src/types.py is not in the source
snapshot; shapes and defaults follow src/constants.py, the uses in
factory.py / data_source.py / app.py, and tests/test_types.py; the pydantic
validators are modelled from the spec, as marked below). -/

/-- Orchestrator bounds.  Field names and defaults are those of
`SwarmOrchestratorConfig` (defaults live in src/constants.py). -/
structure SwarmOrchestratorConfig where
  maxHandoffs : Nat := DEFAULT_MAX_HANDOFFS
  maxIterations : Nat := DEFAULT_MAX_ITERATIONS
  executionTimeoutSeconds : Nat := DEFAULT_EXECUTION_TIMEOUT
  nodeTimeoutSeconds : Nat := DEFAULT_NODE_TIMEOUT
  repetitiveHandoffDetectionWindow : Nat := DEFAULT_REPETITIVE_HANDOFF_DETECTION_WINDOW
  repetitiveHandoffMinUniqueAgents : Nat := DEFAULT_REPETITIVE_HANDOFF_MIN_UNIQUE_AGENTS
deriving Repr, DecidableEq

/-- Modelled from the spec: the bounds constraints of §3 OrchestratorBounds
(`maxHandoffs` ≥ 1, `maxIterations` ≥ 1, both timeouts > 0,
`nodeTimeoutSeconds` ≤ `executionTimeoutSeconds`, window ≥ 2,
minUniqueAgents ≥ 2, window > minUniqueAgents).  The enforcing pydantic
validators live in docker-swarm/src/types.py, which is not in the source
snapshot. -/
def SwarmOrchestratorConfig.boundsOk (c : SwarmOrchestratorConfig) : Bool :=
  decide (1 ≤ c.maxHandoffs) && decide (1 ≤ c.maxIterations) &&
  decide (0 < c.executionTimeoutSeconds) && decide (0 < c.nodeTimeoutSeconds) &&
  decide (c.nodeTimeoutSeconds ≤ c.executionTimeoutSeconds) &&
  decide (2 ≤ c.repetitiveHandoffDetectionWindow) &&
  decide (2 ≤ c.repetitiveHandoffMinUniqueAgents) &&
  decide (c.repetitiveHandoffMinUniqueAgents < c.repetitiveHandoffDetectionWindow)

/-- Modelled from the spec: validation at model-construction time; a
configuration violating the §3 bounds never comes into existence. -/
def SwarmOrchestratorConfig.validate
    (c : SwarmOrchestratorConfig) : Except String SwarmOrchestratorConfig :=
  if c.boundsOk then .ok c else .error "invalid orchestrator bounds"

/-- Per-agent definition.  Model parameters other than the fields used by the
swarm factory and validators are omitted; `toolParameters` values are opaque
parameter dictionaries. -/
structure SwarmAgentDefinition where
  name : String
  instructions : String
  modelId : String
  tools : List String := []
  toolParameters : List (String × List (String × String)) := []
  mcpServers : List String := []
deriving Repr, DecidableEq

/-- Modelled from the spec: §3 AgentNode invariant, "every key in the
tool-parameter mapping must be a member of the tool list", enforced by a
pydantic validator in the missing docker-swarm/src/types.py and exercised by
tests/test_types.py (test_invalid_tool_parameters, message
"toolParameters keys"). -/
def SwarmAgentDefinition.validate
    (a : SwarmAgentDefinition) : Except String SwarmAgentDefinition :=
  if a.toolParameters.all (fun kv => a.tools.contains kv.fst) then .ok a
  else .error "toolParameters keys must match tools"

/-- Reference to an externally stored agent definition
(docker-swarm/src/data_source.py resolves these). -/
structure AgentReference where
  agentName : String
  endpointName : String
deriving Repr, DecidableEq

/-- Conversation-manager policy selector (used opaquely by the factory). -/
inductive EConversationManagerType where
  | SLIDING_WINDOW
  | SUMMARIZING
  | NULL
deriving Repr, DecidableEq

/-- The swarm graph definition, as consumed by factory.create_swarm and
produced by data_source.parse_configuration. -/
structure SwarmConfiguration where
  agents : List SwarmAgentDefinition
  agentReferences : List AgentReference := []
  entryAgent : String
  orchestrator : SwarmOrchestratorConfig := {}
  conversationManager : EConversationManagerType := .SLIDING_WINDOW
deriving Repr, DecidableEq

/-- Modelled from the spec: §3 SwarmConfiguration invariants, enforced by
pydantic validators in the missing docker-swarm/src/types.py and exercised
by tests/test_types.py: node definitions (or references) are non-empty,
node names are pairwise unique, and the entry node exists in the node set
(checked against the concrete agent list when it is present; a
references-only configuration is accepted and re-validated after
resolution, see data_source.parse_configuration). -/
def SwarmConfiguration.validate
    (c : SwarmConfiguration) : Except String SwarmConfiguration :=
  let names := c.agents.map (fun a => a.name)
  if c.agents.isEmpty && c.agentReferences.isEmpty then
    .error "agents must not be empty"
  else if !(names.eraseDups.length == names.length) then
    .error "Duplicate agent names"
  else if !c.agents.isEmpty && !(names.contains c.entryAgent) then
    .error "entryAgent must be one of the agents"
  else .ok c

/-! ## Swarm factory (docker-swarm/src/factory.py, create_swarm) -/

/-- The constructed strands Swarm, reduced to the data the claims are about:
the node registry keys (the Python dict `agents` keyed by agent name, so
first-occurrence order with duplicate names collapsed), the entry point and
the orchestrator bounds forwarded from the configuration. -/
structure SwarmModel where
  nodes : List String
  entry_point : String
  max_handoffs : Nat
  max_iterations : Nat
  execution_timeout : Nat
  node_timeout : Nat
  repetitive_handoff_detection_window : Nat
  repetitive_handoff_min_unique_agents : Nat
deriving Repr, DecidableEq

/-- factory.create_swarm: builds one agent per definition into a dict keyed
by name, remembers the one whose name equals `entryAgent` as entry point,
raises ValueError when no definition matched, and otherwise constructs the
Swarm with the orchestrator bounds of the configuration. -/
def create_swarm (configuration : SwarmConfiguration) : Except String SwarmModel :=
  if configuration.agents.any (fun a => a.name == configuration.entryAgent) then
    .ok
      { nodes := pyDictKeys (configuration.agents.map (fun a => a.name))
        entry_point := configuration.entryAgent
        max_handoffs := configuration.orchestrator.maxHandoffs
        max_iterations := configuration.orchestrator.maxIterations
        execution_timeout := configuration.orchestrator.executionTimeoutSeconds
        node_timeout := configuration.orchestrator.nodeTimeoutSeconds
        repetitive_handoff_detection_window :=
          configuration.orchestrator.repetitiveHandoffDetectionWindow
        repetitive_handoff_min_unique_agents :=
          configuration.orchestrator.repetitiveHandoffMinUniqueAgents }
  else
    .error ("Entry agent " ++ configuration.entryAgent ++ " not found in created agents")

/-! ## Configuration loading (docker-swarm/src/data_source.py) -/

/-- data_source.parse_configuration, after the stored configuration has been
deserialized into `parsed_cfg`: when the configuration carries
agentReferences and no concrete agents, every reference is resolved through
`_load_agent_config` (abstracted as `resolver`, which may raise) and the
configuration is rebuilt through the validating `SwarmConfiguration`
constructor with the loaded agents and an empty reference list; otherwise
the configuration is returned unchanged. -/
def parse_configuration
    (parsed_cfg : SwarmConfiguration)
    (resolver : AgentReference → Except String SwarmAgentDefinition) :
    Except String SwarmConfiguration :=
  if !parsed_cfg.agentReferences.isEmpty && parsed_cfg.agents.isEmpty then
    match mapExcept resolver parsed_cfg.agentReferences with
    | .error e => .error e
    | .ok loaded_agents =>
      SwarmConfiguration.validate
        { agents := loaded_agents
          agentReferences := []
          entryAgent := parsed_cfg.entryAgent
          orchestrator := parsed_cfg.orchestrator
          conversationManager := parsed_cfg.conversationManager }
  else .ok parsed_cfg

/-! ## The orchestration loop (strands Swarm execution; not repository code) -/

/-- Terminal statuses of one swarm run (spec §3 SwarmResult / §4.2). -/
inductive SwarmStatus where
  | COMPLETED
  | FAILED
  | MAX_HANDOFFS_EXCEEDED
  | MAX_ITERATIONS_EXCEEDED
  | EXECUTION_TIMEOUT
  | NODE_TIMEOUT
  | REPETITIVE_HANDOFF_DETECTED
deriving Repr, DecidableEq

/-- Terminal decision of one node invocation (spec §4.1): a final textual
answer, or a handoff directive naming the next agent with an optional
transfer message. -/
inductive NodeAction where
  | finalAnswer (text : String)
  | handoff (target : String) (message : Option String)
deriving Repr, DecidableEq

/-- Append-only handoff log entry (spec §3 HandoffRecord; the model has no
clock, so the timestamp is omitted). -/
structure HandoffRecord where
  fromNode : String
  toNode : String
deriving Repr, DecidableEq

/-- Outcome of one run: terminal status, ordered node-visit history and the
handoff log (spec §3 SwarmResult, reduced to what the claims need). -/
structure RunResult where
  status : SwarmStatus
  nodeHistory : List String
  handoffs : List HandoffRecord
deriving Repr, DecidableEq

/-- The last `w` elements of a list (the sliding window over the handoff
history). -/
def lastWindow {α : Type} (w : Nat) (l : List α) : List α :=
  l.drop (l.length - w)

/-- Number of distinct agent names appearing as `toNode` in a window of
handoff records. -/
def uniqueTargets (recs : List HandoffRecord) : Nat :=
  ((recs.map (fun r => r.toNode)).eraseDups).length

/-- Modelled from the spec: one run of the swarm state machine of §4.2 (the
execution loop lives in the external strands library, not in the
repository).  Per iteration: the iteration ceiling is checked before a node
is invoked (the entry node counts as iteration 1); the invoked node either
answers (COMPLETED) or hands off; a handoff to an unregistered node FAILs
the run; otherwise the record is appended and the handoff counter — the
length of the log — is checked against `maxHandoffs` immediately, before the
sliding-window repetition check, which is skipped until the history reaches
the window size.  The clock checks of §4.2 steps 1 and 3 are outside the
model (no time).  `fuel` counts the iterations still allowed, so `fuel = 0`
is exactly "iterations performed ≥ maxIterations"; `beh` gives each node
invocation outcome as a function of the node and the iteration index. -/
def runLoop (sw : SwarmModel) (beh : String → Nat → NodeAction) :
    Nat → String → Nat → List String → List HandoffRecord → RunResult
  | 0, _, _, hist, hrecs => ⟨.MAX_ITERATIONS_EXCEEDED, hist, hrecs⟩
  | fuel + 1, current, iters, hist, hrecs =>
    match beh current iters with
    | .finalAnswer _ => ⟨.COMPLETED, hist ++ [current], hrecs⟩
    | .handoff target _ =>
      if !(sw.nodes.contains target) then ⟨.FAILED, hist ++ [current], hrecs⟩
      else
        let hrecs2 := hrecs ++ [⟨current, target⟩]
        if sw.max_handoffs < hrecs2.length then
          ⟨.MAX_HANDOFFS_EXCEEDED, hist ++ [current], hrecs2⟩
        else if decide (sw.repetitive_handoff_detection_window ≤ hrecs2.length) &&
            decide (uniqueTargets (lastWindow sw.repetitive_handoff_detection_window hrecs2) <
              sw.repetitive_handoff_min_unique_agents) then
          ⟨.REPETITIVE_HANDOFF_DETECTED, hist ++ [current], hrecs2⟩
        else
          runLoop sw beh fuel target (iters + 1) (hist ++ [current]) hrecs2

/-- A full run: start at the entry point with `maxIterations` iterations
available and empty history. -/
def runSwarm (sw : SwarmModel) (beh : String → Nat → NodeAction) : RunResult :=
  runLoop sw beh sw.max_iterations sw.entry_point 0 [] []

/-! ## Streaming (docker-swarm/src/runner.py and app.py _handle_stream) -/

/-- src/types.py EStreamEvent, as used by runner.py: the flag on a streamed
token. -/
inductive EStreamEvent where
  | FINAL_RESPONSE_TOKEN
  | STREAM_COMPLETE
deriving Repr, DecidableEq

/-- src/types.py StrandToken, as used by runner.py and app.py. -/
structure StrandToken where
  value : String
  flag : EStreamEvent
deriving Repr, DecidableEq

/-- One payload yielded by app.py _handle_stream to the client: either a
partial-token payload carrying `sequenceNumber` (`token_pos`) and the token
text, or the final-response payload carrying the assembled answer. -/
inductive StreamOut where
  | token (sequenceNumber : Nat) (value : String)
  | finalAnswer (content : String)
deriving Repr, DecidableEq

/-- The loop body of app.py _handle_stream: walk the tokens produced by
SwarmCaller.invoke_stream in order; a STREAM_COMPLETE token sets the final
answer and breaks; every other token is forwarded with the current
`token_pos`, which is then incremented.  After the loop the final-response
payload is emitted (content "" when no STREAM_COMPLETE arrived). -/
def handleStreamGo : List StrandToken → Nat → List StreamOut
  | [], _ => [.finalAnswer ""]
  | t :: rest, pos =>
    if t.flag == .STREAM_COMPLETE then [.finalAnswer t.value]
    else .token pos t.value :: handleStreamGo rest (pos + 1)

/-- app.py _handle_stream for one run: `token_pos` is a local variable
initialized to 0, so every run numbers its tokens from scratch. -/
def handle_stream (tokens : List StrandToken) : List StreamOut :=
  handleStreamGo tokens 0

/-- The partial-token payloads of a stream, with their sequence numbers. -/
def tokenPayloads (outs : List StreamOut) : List (Nat × String) :=
  outs.filterMap (fun o =>
    match o with
    | .token i v => some (i, v)
    | .finalAnswer _ => none)

/-! ## Final-answer assembly (app.py invoke, non-streamed result path) -/

/-- The final-answer data dict built by app.py invoke lines 255-272. -/
structure FinalAnswerData where
  content : String
  sessionId : String
  messageId : String
  reasoningContent : Option String
deriving Repr, DecidableEq

/-- The reasoning-content lines: the heading, then for every prior node (all
of node_history but the last) a label "## Agent i+1" followed by that
node's result text. -/
def buildReasoning (priors : List String) : List String :=
  "# Intermediate Swarm node results" ::
    (priors.enum.flatMap (fun p =>
      ["## Agent " ++ toString (p.fst + 1), p.snd]))

/-- app.py invoke lines 255-272: build the reasoning list from every node of
`result.node_history[:-1]` looking its result up by node id (a missing key
is a Python KeyError, modelled as `none`), then build the final answer data
whose content is the last visited node's result; `reasoningContent` is
attached only when the reasoning list has more than the heading line.
`results` maps node id to the `str(...)` of that node's result. -/
def invoke_final_answer (node_history : List String)
    (results : List (String × String)) (sessionId messageId : String) :
    Option FinalAnswerData :=
  match mapOption (dictGet results) node_history.dropLast with
  | none => none
  | some priors =>
    match node_history.getLast? with
    | none => none
    | some lastId =>
      match dictGet results lastId with
      | none => none
      | some content =>
        let reasoning := buildReasoning priors
        some
          { content := content
            sessionId := sessionId
            messageId := messageId
            reasoningContent :=
              if 1 < reasoning.length then
                some (String.intercalate "\n\n" reasoning)
              else none }

/-! ## Result extraction (docker-swarm/src/runner.py, SwarmCaller) -/

/-- One element of a message content list as runner.py inspects it: a dict
with a "text" entry, a dict without one, an object with a `text` attribute,
or anything else. -/
inductive PyBlock where
  | dictWithText (t : String)
  | dictOther
  | objWithText (t : String)
  | objOther
deriving Repr, DecidableEq

/-- A message `content` value: a list of blocks, a string, or another type. -/
inductive PyContent where
  | blocks (bs : List PyBlock)
  | str (s : String)
  | other
deriving Repr, DecidableEq

/-- A message as runner.py inspects it: a dict (whose `get("content", [])`
yields the stored content, an empty block list when the key is absent), an
object that may or may not have a `content` attribute, or neither. -/
inductive PyMessage where
  | dict (content : PyContent)
  | obj (content : Option PyContent)
  | plain
deriving Repr, DecidableEq

/-- An AgentResult: `message` is `none` when the attribute is missing or
falsy; `repr` is its `str(...)`. -/
structure PyAgentResult where
  message : Option PyMessage
  repr : String
deriving Repr, DecidableEq

/-- A NodeResult: `result` is `none` when the attribute is missing or falsy;
`repr` is its `str(...)`. -/
structure PyNodeResult where
  result : Option PyAgentResult
  repr : String
deriving Repr, DecidableEq

/-- A node-history entry: `node_id` is `none` when the attribute is missing
(runner.py then falls back to `str(last_node)`, the `repr` field). -/
structure PyNode where
  node_id : Option String
  repr : String
deriving Repr, DecidableEq

/-- A SwarmResult as runner.py inspects it: `node_history` and `results` are
`none` when the attribute is missing; `repr` is its `str(...)`. -/
structure PySwarmResult where
  node_history : Option (List PyNode)
  results : Option (List (String × PyNodeResult))
  repr : String
deriving Repr, DecidableEq

/-- First block that is a dict with a "text" entry (the only kind the
dict-message branch of runner.py returns from). -/
def dictBranchText (bs : List PyBlock) : Option String :=
  bs.findSome? (fun b =>
    match b with
    | .dictWithText t => some t
    | _ => none)

/-- First block that is a dict with a "text" entry or has a `text`
attribute (the object-message branch of runner.py checks both). -/
def objBranchText (bs : List PyBlock) : Option String :=
  bs.findSome? (fun b =>
    match b with
    | .dictWithText t => some t
    | .objWithText t => some t
    | _ => none)

/-- runner.py SwarmCaller._extract_text_from_node_result: successive guarded
extractions, each failure falling through until `str(node_result)` is
returned.  A dict message whose content list holds no text block falls past
the dict branch and past the `hasattr(message, "content")` check (a Python
dict has no such attribute), landing on `str(node_result)`. -/
def extract_text_from_node_result (nr : PyNodeResult) : String :=
  match nr.result with
  | none => nr.repr
  | some ar =>
    match ar.message with
    | none => ar.repr
    | some msg =>
      match msg with
      | .dict content =>
        match content with
        | .blocks bs => (dictBranchText bs).getD nr.repr
        | .str s => s
        | .other => nr.repr
      | .obj contentOpt =>
        match contentOpt with
        | none => nr.repr
        | some (.blocks bs) => (objBranchText bs).getD nr.repr
        | some (.str s) => s
        | some .other => nr.repr
      | .plain => nr.repr

/-- runner.py SwarmCaller._extract_final_response: when node_history exists
and is non-empty, look the last visited node's id (or its `str(...)` when
`node_id` is missing) up in the results dict and extract its text; when
that path fails at any guard, fall back to the last value of the results
dict; when that is also unavailable, return `str(swarm_result)`. -/
def extract_final_response (sr : PySwarmResult) : String :=
  let viaHistory : Option String :=
    match sr.node_history with
    | none => none
    | some nodes =>
      match nodes.getLast? with
      | none => none
      | some lastNode =>
        match sr.results with
        | none => none
        | some rs =>
          match dictGet rs (lastNode.node_id.getD lastNode.repr) with
          | none => none
          | some nr => some (extract_text_from_node_result nr)
  match viaHistory with
  | some s => s
  | none =>
    match sr.results with
    | none => sr.repr
    | some rs =>
      match rs.getLast? with
      | none => sr.repr
      | some p => extract_text_from_node_result p.snd

/-! ## Streaming invocation (runner.py SwarmCaller.invoke_stream) and the
app-level error boundary (app.py invoke lines 285-288) -/

/-- The typed failures of the underlying model invocation that runner.py
catches and re-raises (strands EventLoopException / ModelThrottledException)
plus any other exception, which propagates uncaught. -/
inductive SwarmExc where
  | modelThrottled (msg : String)
  | eventLoop (msg : String)
  | other (msg : String)
deriving Repr, DecidableEq

/-- `str(err)` of a swarm exception. -/
def excMessage : SwarmExc → String
  | .modelThrottled m => m
  | .eventLoop m => m
  | .other m => m

/-- One event of the strands stream as runner.py dispatches on it. -/
inductive SwarmEvent where
  | nodeStream (data : String)
  | handoffEvent (fromIds toIds : List String)
  | resultEvent (result : Option PySwarmResult)
  | otherEvent
deriving Repr, DecidableEq

/-- The event loop of invoke_stream: multiagent_node_stream data becomes a
FINAL_RESPONSE_TOKEN, handoffs are only logged, a truthy multiagent_result
becomes a STREAM_COMPLETE token carrying the stripped extracted final
response; other events yield nothing and the loop continues. -/
def processEvents : List SwarmEvent → List StrandToken
  | [] => []
  | .nodeStream d :: rest => ⟨d, .FINAL_RESPONSE_TOKEN⟩ :: processEvents rest
  | .handoffEvent _ _ :: rest => processEvents rest
  | .resultEvent none :: rest => processEvents rest
  | .resultEvent (some sr) :: rest =>
    ⟨(extract_final_response sr).trim, .STREAM_COMPLETE⟩ :: processEvents rest
  | .otherEvent :: rest => processEvents rest

/-- runner.py SwarmCaller.invoke_stream: the swarm's stream is started once
(`attempt 0` of an oracle indexed by attempt number — invoke_stream has no
retry construct, so later attempts are never consumed); when it raises, the
except clause logs and re-raises the typed failures, and any other
exception propagates uncaught, so every failure reaches the caller
unchanged and un-retried. -/
def invoke_stream (attempt : Nat → Except SwarmExc (List SwarmEvent)) :
    Except SwarmExc (List StrandToken) :=
  match attempt 0 with
  | .error e => .error e
  | .ok events => .ok (processEvents events)

/-- What app.py invoke yields to its caller: the final payload on success,
or the structured dict with keys "error" and "action": "error" built by the
except branch of lines 285-288. -/
inductive AppOut where
  | success (d : FinalAnswerData)
  | errorOut (message : String) (action : String)
deriving Repr, DecidableEq

/-- The error boundary of app.py invoke: the whole swarm call is inside a
try whose except yields `{"error": str(err), "action": "error"}` instead of
letting the exception escape. -/
def app_invoke_catch (r : Except SwarmExc FinalAnswerData) : AppOut :=
  match r with
  | .ok d => .success d
  | .error e => .errorOut (excMessage e) "error"

/-! ## The create_swarm call site of app.py (for the keyword-binding bug) -/

/-- The parameter names of factory.create_swarm, in order
(factory.py lines 46-51). -/
def createSwarmParams : List String :=
  ["configuration", "logger", "mcp_client_manager", "session_manager"]

/-- The keyword-argument names that app.py invoke passes to create_swarm
(app.py lines 195-202), after the two positional arguments. -/
def appCreateSwarmKwargs : List String :=
  ["session_id", "user_id", "mcp_client_manager", "session_manager"]

/-- The keyword arguments of a Python call that the callee does not accept;
any such argument makes the call raise
`TypeError: unexpected keyword argument` before the function body runs. -/
def unexpectedKwargs (params kwargs : List String) : List String :=
  kwargs.filter (fun k => !(params.contains k))


/-! # Theorems -/

/-! ## Helper lemmas -/

theorem beq_string_comm (a b : String) : (a == b) = (b == a) := by
  cases h : a == b
  · cases h2 : b == a
    · rfl
    · simp_all
  · simp_all

theorem contains_map_name_eq_any (l : List SwarmAgentDefinition) (e : String) :
    (l.map (fun a => a.name)).contains e = l.any (fun a => a.name == e) := by
  induction l with
  | nil => rfl
  | cons a t ih =>
    simp only [List.map_cons, List.contains_cons, List.any_cons, ← ih]
    rw [beq_string_comm]

theorem mem_pyDictKeys (x : String) (l : List String) :
    x ∈ pyDictKeys l ↔ x ∈ l := by
  induction l with
  | nil => simp [pyDictKeys]
  | cons a t ih =>
    by_cases h : x = a
    · subst h
      simp [pyDictKeys]
    · simp [pyDictKeys, h, List.mem_filter, ih]

theorem mapOption_length {α β : Type} (f : α → Option β) :
    ∀ (l : List α) (l2 : List β), mapOption f l = some l2 → l2.length = l.length := by
  intro l
  induction l with
  | nil =>
    intro l2 h
    simp [mapOption] at h
    subst h
    rfl
  | cons a t ih =>
    intro l2 h
    simp only [mapOption] at h
    cases hf : f a with
    | none => rw [hf] at h; exact absurd h (by simp)
    | some b =>
      rw [hf] at h
      cases hm : mapOption f t with
      | none => rw [hm] at h; exact absurd h (by simp)
      | some bs =>
        rw [hm] at h
        simp at h
        subst h
        simp [ih bs hm]

theorem mapExcept_length {ε α β : Type} (f : α → Except ε β) :
    ∀ (l : List α) (l2 : List β), mapExcept f l = .ok l2 → l2.length = l.length := by
  intro l
  induction l with
  | nil =>
    intro l2 h
    simp [mapExcept] at h
    subst h
    rfl
  | cons a t ih =>
    intro l2 h
    simp only [mapExcept] at h
    cases hf : f a with
    | error e => rw [hf] at h; exact absurd h (by simp)
    | ok b =>
      rw [hf] at h
      cases hm : mapExcept f t with
      | error e => rw [hm] at h; exact absurd h (by simp)
      | ok bs =>
        rw [hm] at h
        simp at h
        subst h
        simp [ih bs hm]

theorem flatMap_pair_length {α : Type} (f g : α → String) :
    ∀ l : List α, (l.flatMap (fun p => [f p, g p])).length = 2 * l.length := by
  intro l
  induction l with
  | nil => rfl
  | cons a t ih =>
    simp [List.flatMap_cons, ih]
    omega

theorem buildReasoning_length (priors : List String) :
    (buildReasoning priors).length = 1 + 2 * priors.length := by
  simp only [buildReasoning, List.length_cons, flatMap_pair_length, List.enum_length]
  omega

/-! ## C2 — entry validity at build time -/

/-- C2: a SwarmConfiguration whose entryAgent names no agent in the agent
set makes create_swarm raise ValueError at build time, before any node is
invoked; conversely every swarm create_swarm does construct has its entry
point registered among its nodes, so the missing-entry failure can never
occur at run time. -/
theorem entry_agent_validated_at_build_time (cfg : SwarmConfiguration) :
    ((cfg.agents.map (fun a => a.name)).contains cfg.entryAgent = false →
      ∃ e, create_swarm cfg = .error e) ∧
    (∀ sw, create_swarm cfg = .ok sw →
      sw.entry_point = cfg.entryAgent ∧ sw.entry_point ∈ sw.nodes) := by
  constructor
  · intro h
    rw [contains_map_name_eq_any] at h
    exact ⟨"Entry agent " ++ cfg.entryAgent ++ " not found in created agents",
      by simp [create_swarm, h]⟩
  · intro sw hok
    by_cases hc : cfg.agents.any (fun a => a.name == cfg.entryAgent)
    · simp only [create_swarm, hc, if_pos] at hok
      have hsw := hok
      obtain ⟨a, ha, hname⟩ := List.any_eq_true.mp hc
      have hmem : cfg.entryAgent ∈ cfg.agents.map (fun a => a.name) := by
        simp only [List.mem_map]
        exact ⟨a, ha, by simpa using hname⟩
      cases hsw
      exact ⟨rfl, by simpa [mem_pyDictKeys] using hmem⟩
    · simp [create_swarm, hc] at hok

/-- Witness for C2: a configuration with only a "researcher" agent and entry
"nonexistent" fails to build (the scenario of test_invalid_entry_agent),
while the configuration with entry "researcher" builds a swarm whose entry
point is among its nodes. -/
theorem entry_agent_validated_witness :
    (∃ e, create_swarm
      { agents := [{ name := "researcher", instructions := "", modelId := "m" }],
        entryAgent := "nonexistent" } = .error e) ∧
    ((⟨["researcher"], "researcher", 20, 20, 900, 300, 8, 3⟩ : SwarmModel).entry_point
        = "researcher" ∧
     (⟨["researcher"], "researcher", 20, 20, 900, 300, 8, 3⟩ : SwarmModel).entry_point
        ∈ (⟨["researcher"], "researcher", 20, 20, 900, 300, 8, 3⟩ : SwarmModel).nodes) :=
  ⟨(entry_agent_validated_at_build_time
      { agents := [{ name := "researcher", instructions := "", modelId := "m" }],
        entryAgent := "nonexistent" }).1 (by decide),
   (entry_agent_validated_at_build_time
      { agents := [{ name := "researcher", instructions := "", modelId := "m" }],
        entryAgent := "researcher" }).2
      ⟨["researcher"], "researcher", 20, 20, 900, 300, 8, 3⟩ rfl⟩

/-! ## C7 — toolParameters keys are members of the tool list -/

/-- C7: every SwarmAgentDefinition the validator accepts has all its
toolParameters keys inside its tools list, and a definition carrying a key
outside the tools list is rejected with a validation error. -/
theorem tool_parameters_keys_subset_tools (a : SwarmAgentDefinition) :
    (∀ b, a.validate = .ok b → ∀ kv ∈ b.toolParameters, kv.fst ∈ b.tools) ∧
    ((∃ kv ∈ a.toolParameters, kv.fst ∉ a.tools) → ∃ e, a.validate = .error e) := by
  constructor
  · intro b hok kv hkv
    simp only [SwarmAgentDefinition.validate] at hok
    split at hok
    · rename_i h
      cases hok
      have := List.all_eq_true.mp h kv hkv
      simpa using this
    · exact absurd hok (by simp)
  · rintro ⟨kv, hkv, hnot⟩
    have h : a.toolParameters.all (fun kv => a.tools.contains kv.fst) = false := by
      rw [List.all_eq_false]
      exact ⟨kv, hkv, by simpa using hnot⟩
    exact ⟨"toolParameters keys must match tools",
      by simp only [SwarmAgentDefinition.validate, h, Bool.false_eq_true, if_false]⟩

/-- Witness for C7: the definition of test_invalid_tool_parameters — tools
["get_current_time"] with a toolParameters key "unknown_tool" — is
rejected. -/
theorem tool_parameters_keys_witness :
    ∃ e, SwarmAgentDefinition.validate
      { name := "researcher", instructions := "", modelId := "m",
        tools := ["get_current_time"],
        toolParameters := [("unknown_tool", [])] } = .error e :=
  (tool_parameters_keys_subset_tools
    { name := "researcher", instructions := "", modelId := "m",
      tools := ["get_current_time"],
      toolParameters := [("unknown_tool", [])] }).2
    ⟨("unknown_tool", []), by decide, by decide⟩

/-! ## C8 — orchestrator defaults and bounds validation -/

/-- C8: a SwarmOrchestratorConfig constructed with no arguments carries the
defaults 20 / 20 / 900 / 300 / 8 / 3, and validation succeeds exactly when
the §3 bounds constraints hold, so a violating configuration fails before
any run starts. -/
theorem orchestrator_defaults_and_bounds :
    (({} : SwarmOrchestratorConfig).maxHandoffs = 20 ∧
     ({} : SwarmOrchestratorConfig).maxIterations = 20 ∧
     ({} : SwarmOrchestratorConfig).executionTimeoutSeconds = 900 ∧
     ({} : SwarmOrchestratorConfig).nodeTimeoutSeconds = 300 ∧
     ({} : SwarmOrchestratorConfig).repetitiveHandoffDetectionWindow = 8 ∧
     ({} : SwarmOrchestratorConfig).repetitiveHandoffMinUniqueAgents = 3) ∧
    (∀ c : SwarmOrchestratorConfig,
      (c.validate = .ok c ↔
        (1 ≤ c.maxHandoffs ∧ 1 ≤ c.maxIterations ∧
         0 < c.executionTimeoutSeconds ∧ 0 < c.nodeTimeoutSeconds ∧
         c.nodeTimeoutSeconds ≤ c.executionTimeoutSeconds ∧
         2 ≤ c.repetitiveHandoffDetectionWindow ∧
         2 ≤ c.repetitiveHandoffMinUniqueAgents ∧
         c.repetitiveHandoffMinUniqueAgents < c.repetitiveHandoffDetectionWindow)) ∧
      (c.boundsOk = false → ∃ e, c.validate = .error e)) := by
  refine ⟨⟨rfl, rfl, rfl, rfl, rfl, rfl⟩, fun c => ⟨?_, ?_⟩⟩
  · have hb : c.boundsOk = true ↔
        (1 ≤ c.maxHandoffs ∧ 1 ≤ c.maxIterations ∧
         0 < c.executionTimeoutSeconds ∧ 0 < c.nodeTimeoutSeconds ∧
         c.nodeTimeoutSeconds ≤ c.executionTimeoutSeconds ∧
         2 ≤ c.repetitiveHandoffDetectionWindow ∧
         2 ≤ c.repetitiveHandoffMinUniqueAgents ∧
         c.repetitiveHandoffMinUniqueAgents < c.repetitiveHandoffDetectionWindow) := by
      simp only [SwarmOrchestratorConfig.boundsOk, Bool.and_eq_true, decide_eq_true_eq]
      tauto
    by_cases h : c.boundsOk
    · rw [SwarmOrchestratorConfig.validate, if_pos h]
      exact iff_of_true rfl (hb.mp h)
    · rw [SwarmOrchestratorConfig.validate, if_neg h]
      exact iff_of_false (by simp) (fun hp => h (hb.mpr hp))
  · intro h
    exact ⟨"invalid orchestrator bounds",
      by simp [SwarmOrchestratorConfig.validate, h]⟩

/-- Witness for C8: the no-argument configuration validates, and the
configuration with maxHandoffs = 0 is rejected. -/
theorem orchestrator_defaults_witness :
    SwarmOrchestratorConfig.validate {} = .ok {} ∧
    (∃ e, SwarmOrchestratorConfig.validate { maxHandoffs := 0 } = .error e) :=
  ⟨(orchestrator_defaults_and_bounds.2 {}).1.mpr (by decide),
   (orchestrator_defaults_and_bounds.2 { maxHandoffs := 0 }).2 (by decide)⟩

/-! ## C5 — the create_swarm call site of app.py (code bug) -/

/-- C5: the claim's construction step cannot happen as stated — the
create_swarm call in app.py invoke passes the keyword arguments session_id
and user_id, which factory.create_swarm does not declare (its parameters
are configuration, logger, mcp_client_manager, session_manager), so the
swarm-construction call raises TypeError: unexpected keyword argument on
every initialization instead of constructing and caching a swarm (the
cleanup-before-rebuild and cleanup-on-failure ordering around it is
intact, but construction itself never succeeds). -/
theorem create_swarm_call_unexpected_kwargs :
    unexpectedKwargs createSwarmParams appCreateSwarmKwargs = ["session_id", "user_id"] ∧
    unexpectedKwargs createSwarmParams appCreateSwarmKwargs ≠ [] := by
  exact ⟨rfl, by decide⟩

/-! ## C6 — no retry, structured error to the caller -/

/-- C6: the runner starts the underlying swarm stream exactly once — its
result depends only on attempt 0 of the invocation oracle, so no retry is
performed — a throttling or validation failure of that single attempt
propagates unchanged, and the app-level except branch converts any such
exception into the structured error payload with action "error" instead of
an unhandled crash. -/
theorem no_retry_and_structured_error :
    (∀ a b : Nat → Except SwarmExc (List SwarmEvent),
      a 0 = b 0 → invoke_stream a = invoke_stream b) ∧
    (∀ (a : Nat → Except SwarmExc (List SwarmEvent)) (e : SwarmExc),
      a 0 = .error e → invoke_stream a = .error e) ∧
    (∀ e : SwarmExc,
      app_invoke_catch (.error e) = .errorOut (excMessage e) "error") := by
  refine ⟨?_, ?_, ?_⟩
  · intro a b h
    rw [invoke_stream, invoke_stream, h]
  · intro a e h
    rw [invoke_stream, h]
  · intro e
    rfl

/-- Witness for C6: a first attempt failing with throttling propagates as
that same error, and the app layer renders it as the structured error
payload. -/
theorem no_retry_witness :
    invoke_stream (fun _ => .error (.modelThrottled "throttled")) =
      .error (.modelThrottled "throttled") ∧
    app_invoke_catch (.error (.modelThrottled "throttled")) =
      .errorOut "throttled" "error" :=
  ⟨no_retry_and_structured_error.2.1 _ _ rfl,
   no_retry_and_structured_error.2.2 (.modelThrottled "throttled")⟩

/-! ## C1 — bounded handoffs under an always-handoff behavior -/

/-- Loop invariant: while every invocation hands off to a registered node,
the handoff log never grows past maxHandoffs + 1, the run can only end in
one of the three exhaustion / loop-detection statuses, and ending in
MAX_HANDOFFS_EXCEEDED pins the log length at exactly maxHandoffs + 1 (the
ceiling check of §4.2 fires only after the counter has passed the bound). -/
theorem runLoop_always_handoff (sw : SwarmModel) (beh : String → Nat → NodeAction)
    (hbeh : ∀ n i, ∃ t m, beh n i = .handoff t m ∧ sw.nodes.contains t = true) :
    ∀ (fuel : Nat) (current : String) (iters : Nat) (hist : List String)
      (hrecs : List HandoffRecord),
      hrecs.length ≤ sw.max_handoffs →
      (runLoop sw beh fuel current iters hist hrecs).handoffs.length ≤ sw.max_handoffs + 1 ∧
      ((runLoop sw beh fuel current iters hist hrecs).status = .MAX_HANDOFFS_EXCEEDED ∨
       (runLoop sw beh fuel current iters hist hrecs).status = .MAX_ITERATIONS_EXCEEDED ∨
       (runLoop sw beh fuel current iters hist hrecs).status = .REPETITIVE_HANDOFF_DETECTED) ∧
      ((runLoop sw beh fuel current iters hist hrecs).status = .MAX_HANDOFFS_EXCEEDED →
       (runLoop sw beh fuel current iters hist hrecs).handoffs.length = sw.max_handoffs + 1) := by
  intro fuel
  induction fuel with
  | zero =>
    intro current iters hist hrecs hlen
    simp only [runLoop]
    exact ⟨by omega, Or.inr (Or.inl trivial), by intro h; exact absurd h (by simp)⟩
  | succ fuel ih =>
    intro current iters hist hrecs hlen
    obtain ⟨t, m, hbt, hct⟩ := hbeh current iters
    simp only [runLoop, hbt, hct, Bool.not_true, Bool.false_eq_true, if_false]
    split
    · rename_i h1
      simp only [List.length_append, List.length_cons, List.length_nil] at h1 ⊢
      exact ⟨by omega, Or.inl trivial, by intro _; omega⟩
    · rename_i h1
      simp only [List.length_append, List.length_cons, List.length_nil] at h1
      split
      · exact ⟨by simp; omega, Or.inr (Or.inr rfl), by intro h; exact absurd h (by simp)⟩
      · exact ih t (iters + 1) (hist ++ [current]) (hrecs ++ [⟨current, t⟩]) (by simp; omega)

/-- C1 (amended): for a swarm built from a configuration with
maxHandoffs = N, a run in which every invoked node hands off to a
registered node performs at most N + 1 handoffs (not N: the orchestrator
of §4.2 stops only once the handoff counter exceeds N), and it terminates
in MAX_HANDOFFS_EXCEEDED unless the iteration ceiling or the
repetitive-handoff detection fires first, in which case the status is
MAX_ITERATIONS_EXCEEDED or REPETITIVE_HANDOFF_DETECTED; when the status is
MAX_HANDOFFS_EXCEEDED the run performed exactly N + 1 handoffs. -/
theorem bounded_handoffs_always_handoff
    (cfg : SwarmConfiguration) (sw : SwarmModel)
    (beh : String → Nat → NodeAction)
    (hsw : create_swarm cfg = .ok sw)
    (hbeh : ∀ n i, ∃ t m, beh n i = .handoff t m ∧ sw.nodes.contains t = true) :
    (runSwarm sw beh).handoffs.length ≤ cfg.orchestrator.maxHandoffs + 1 ∧
    ((runSwarm sw beh).status = .MAX_HANDOFFS_EXCEEDED ∨
     (runSwarm sw beh).status = .MAX_ITERATIONS_EXCEEDED ∨
     (runSwarm sw beh).status = .REPETITIVE_HANDOFF_DETECTED) ∧
    ((runSwarm sw beh).status = .MAX_HANDOFFS_EXCEEDED →
      (runSwarm sw beh).handoffs.length = cfg.orchestrator.maxHandoffs + 1) := by
  have hmax : sw.max_handoffs = cfg.orchestrator.maxHandoffs := by
    by_cases hc : cfg.agents.any (fun a => a.name == cfg.entryAgent)
    · simp only [create_swarm, hc, if_pos] at hsw
      cases hsw
      rfl
    · simp [create_swarm, hc] at hsw
  rw [← hmax]
  simp only [runSwarm]
  exact runLoop_always_handoff sw beh hbeh sw.max_iterations sw.entry_point 0 [] [] (by simp)

/-- Counterexample to C1 as stated, at two concrete always-handoff runs:
(a) a single agent handing off to itself under maxHandoffs = 1 (window 3,
minimum 2 unique agents, so loop detection cannot preempt) terminates in
MAX_HANDOFFS_EXCEEDED only after performing 2 handoffs, violating the
claimed bound of at most 1; (b) two agents ping-ponging under the default
bounds (maxHandoffs = 20, window 8, minimum 3 unique agents) terminate in
REPETITIVE_HANDOFF_DETECTED after 8 handoffs, not in
MAX_HANDOFFS_EXCEEDED, violating the claimed terminal status. -/
theorem bounded_handoffs_counterexample :
    create_swarm
      { agents := [{ name := "a", instructions := "", modelId := "m" }],
        entryAgent := "a",
        orchestrator := { maxHandoffs := 1, maxIterations := 20,
                          executionTimeoutSeconds := 900, nodeTimeoutSeconds := 300,
                          repetitiveHandoffDetectionWindow := 3,
                          repetitiveHandoffMinUniqueAgents := 2 } } =
      .ok ⟨["a"], "a", 1, 20, 900, 300, 3, 2⟩ ∧
    (runSwarm ⟨["a"], "a", 1, 20, 900, 300, 3, 2⟩
        (fun _ _ => .handoff "a" none)).status = .MAX_HANDOFFS_EXCEEDED ∧
    (runSwarm ⟨["a"], "a", 1, 20, 900, 300, 3, 2⟩
        (fun _ _ => .handoff "a" none)).handoffs.length = 2 ∧
    ¬ ((runSwarm ⟨["a"], "a", 1, 20, 900, 300, 3, 2⟩
        (fun _ _ => .handoff "a" none)).handoffs.length ≤ 1) ∧
    create_swarm
      { agents := [{ name := "a", instructions := "", modelId := "m" },
                   { name := "b", instructions := "", modelId := "m" }],
        entryAgent := "a" } =
      .ok ⟨["a", "b"], "a", 20, 20, 900, 300, 8, 3⟩ ∧
    (runSwarm ⟨["a", "b"], "a", 20, 20, 900, 300, 8, 3⟩
        (fun n _ => .handoff (if n == "a" then "b" else "a") none)).status =
      .REPETITIVE_HANDOFF_DETECTED ∧
    (runSwarm ⟨["a", "b"], "a", 20, 20, 900, 300, 8, 3⟩
        (fun n _ => .handoff (if n == "a" then "b" else "a") none)).handoffs.length = 8 ∧
    ¬ ((runSwarm ⟨["a", "b"], "a", 20, 20, 900, 300, 8, 3⟩
        (fun n _ => .handoff (if n == "a" then "b" else "a") none)).status =
      .MAX_HANDOFFS_EXCEEDED) :=
  ⟨rfl, rfl, rfl, by decide, rfl, rfl, rfl, by decide⟩

/-- Witness for the amended C1 at the same concrete swarm: 2 = 1 + 1
handoffs and the MAX_HANDOFFS_EXCEEDED status. -/
theorem bounded_handoffs_witness :
    (runSwarm ⟨["a"], "a", 1, 20, 900, 300, 3, 2⟩
        (fun _ _ => .handoff "a" none)).handoffs.length ≤ 1 + 1 ∧
    ((runSwarm ⟨["a"], "a", 1, 20, 900, 300, 3, 2⟩
        (fun _ _ => .handoff "a" none)).status = .MAX_HANDOFFS_EXCEEDED ∨
     (runSwarm ⟨["a"], "a", 1, 20, 900, 300, 3, 2⟩
        (fun _ _ => .handoff "a" none)).status = .MAX_ITERATIONS_EXCEEDED ∨
     (runSwarm ⟨["a"], "a", 1, 20, 900, 300, 3, 2⟩
        (fun _ _ => .handoff "a" none)).status = .REPETITIVE_HANDOFF_DETECTED) ∧
    ((runSwarm ⟨["a"], "a", 1, 20, 900, 300, 3, 2⟩
        (fun _ _ => .handoff "a" none)).status = .MAX_HANDOFFS_EXCEEDED →
      (runSwarm ⟨["a"], "a", 1, 20, 900, 300, 3, 2⟩
        (fun _ _ => .handoff "a" none)).handoffs.length = 1 + 1) :=
  bounded_handoffs_always_handoff
    { agents := [{ name := "a", instructions := "", modelId := "m" }],
      entryAgent := "a",
      orchestrator := { maxHandoffs := 1, maxIterations := 20,
                        executionTimeoutSeconds := 900, nodeTimeoutSeconds := 300,
                        repetitiveHandoffDetectionWindow := 3,
                        repetitiveHandoffMinUniqueAgents := 2 } }
    ⟨["a"], "a", 1, 20, 900, 300, 3, 2⟩
    (fun _ _ => .handoff "a" none)
    rfl
    (fun _ _ => ⟨"a", none, rfl, rfl⟩)

/-! ## C4 — token ordering and sequence numbers -/

/-- The loop invariant of _handle_stream: starting the counter at `pos`, the
partial-token payloads are exactly the values of the tokens up to (not
including) the first STREAM_COMPLETE, numbered consecutively from `pos`. -/
theorem handleStreamGo_tokens :
    ∀ (toks : List StrandToken) (pos : Nat),
      tokenPayloads (handleStreamGo toks pos) =
        List.enumFrom pos
          ((toks.takeWhile (fun t => !(t.flag == .STREAM_COMPLETE))).map
            (fun t => t.value)) := by
  intro toks
  induction toks with
  | nil => intro pos; rfl
  | cons t rest ih =>
    intro pos
    by_cases h : (t.flag == EStreamEvent.STREAM_COMPLETE) = true
    · simp [handleStreamGo, h, tokenPayloads, List.takeWhile_cons]
    · have hb : (t.flag == EStreamEvent.STREAM_COMPLETE) = false := by
        simpa using h
      simp [handleStreamGo, hb, tokenPayloads, List.takeWhile_cons, List.enumFrom]
      exact ih (pos + 1)

/-- C4: within one run of _handle_stream the partial-token payloads carry
sequence numbers 0, 1, 2, … in the exact order the underlying tokens were
produced (`List.enum` numbers the forwarded values consecutively from 0),
and because `token_pos` is a local of _handle_stream initialized to 0, the
numbering restarts at 0 for every run, independent of any earlier run. -/
theorem stream_sequence_numbers (tokens : List StrandToken) :
    tokenPayloads (handle_stream tokens) =
      ((tokens.takeWhile (fun t => !(t.flag == .STREAM_COMPLETE))).map
        (fun t => t.value)).enum :=
  handleStreamGo_tokens tokens 0

/-- Witness for C4: a concrete run of two tokens followed by a
STREAM_COMPLETE and a late token numbers the two forwarded tokens 0 and 1
and drops everything from the STREAM_COMPLETE on. -/
theorem stream_sequence_numbers_witness :
    tokenPayloads (handle_stream
      [{ value := "t0", flag := .FINAL_RESPONSE_TOKEN },
       { value := "t1", flag := .FINAL_RESPONSE_TOKEN },
       { value := "done", flag := .STREAM_COMPLETE },
       { value := "late", flag := .FINAL_RESPONSE_TOKEN }]) =
      ((([{ value := "t0", flag := .FINAL_RESPONSE_TOKEN },
          { value := "t1", flag := .FINAL_RESPONSE_TOKEN },
          { value := "done", flag := .STREAM_COMPLETE },
          { value := "late", flag := .FINAL_RESPONSE_TOKEN }]
          : List StrandToken).takeWhile
            (fun t => !(t.flag == .STREAM_COMPLETE))).map
        (fun t => t.value)).enum :=
  stream_sequence_numbers
    [{ value := "t0", flag := .FINAL_RESPONSE_TOKEN },
     { value := "t1", flag := .FINAL_RESPONSE_TOKEN },
     { value := "done", flag := .STREAM_COMPLETE },
     { value := "late", flag := .FINAL_RESPONSE_TOKEN }]

/-! ## C3 — composite final answer of app.py invoke -/

/-- C3: whenever the final-answer assembly of app.py invoke succeeds, the
payload content is the result of the last node of node_history looked up by
its node id in the results map, reasoningContent is present exactly when at
least two nodes were visited, and it is then the heading plus every prior
node's result labeled by visit order ("## Agent i+1"), joined by blank
lines. -/
theorem final_answer_composition
    (hist : List String) (results : List (String × String)) (sid mid : String)
    (d : FinalAnswerData)
    (h : invoke_final_answer hist results sid mid = some d) :
    (∃ lastId, hist.getLast? = some lastId ∧ dictGet results lastId = some d.content) ∧
    (d.reasoningContent.isSome ↔ 2 ≤ hist.length) ∧
    (∀ priors, mapOption (dictGet results) hist.dropLast = some priors →
      2 ≤ hist.length →
      d.reasoningContent = some (String.intercalate "\n\n" (buildReasoning priors))) := by
  cases hm : mapOption (dictGet results) hist.dropLast with
  | none =>
    simp only [invoke_final_answer, hm] at h
    exact absurd h (by simp)
  | some priors =>
    cases hl : hist.getLast? with
    | none =>
      simp only [invoke_final_answer, hm, hl] at h
      exact absurd h (by simp)
    | some lastId =>
      cases hg : dictGet results lastId with
      | none =>
        simp only [invoke_final_answer, hm, hl, hg] at h
        exact absurd h (by simp)
      | some content =>
        simp only [invoke_final_answer, hm, hl, hg, Option.some.injEq] at h
        subst h
        have hne : hist ≠ [] := by
          intro hh
          subst hh
          simp at hl
        have hlen1 : 1 ≤ hist.length := List.length_pos.mpr hne
        have hplen : priors.length = hist.length - 1 := by
          rw [mapOption_length (dictGet results) hist.dropLast priors hm,
            List.length_dropLast]
        refine ⟨⟨lastId, rfl, hg⟩, ?_, ?_⟩
        · by_cases h2 : 1 < (buildReasoning priors).length
          · rw [show (if 1 < (buildReasoning priors).length then
                some (String.intercalate "\n\n" (buildReasoning priors))
              else none) = some (String.intercalate "\n\n" (buildReasoning priors))
              from if_pos h2]
            simp only [Option.isSome_some, true_iff]
            rw [buildReasoning_length] at h2
            omega
          · rw [show (if 1 < (buildReasoning priors).length then
                some (String.intercalate "\n\n" (buildReasoning priors))
              else none) = none from if_neg h2]
            simp only [Option.isSome_none, Bool.false_eq_true, false_iff]
            rw [buildReasoning_length] at h2
            omega
        · intro priors2 hm2 hlen2
          injection hm2 with hp2
          subst hp2
          have h2 : 1 < (buildReasoning priors).length := by
            rw [buildReasoning_length]
            omega
          rw [show (if 1 < (buildReasoning priors).length then
              some (String.intercalate "\n\n" (buildReasoning priors))
            else none) = some (String.intercalate "\n\n" (buildReasoning priors))
            from if_pos h2]

/-- Witness for C3: history ["a", "b"] with results ra / rb yields content
"rb" and a reasoningContent labeling ra as Agent 1. -/
theorem final_answer_composition_witness :
    (∃ lastId, (["a", "b"] : List String).getLast? = some lastId ∧
      dictGet [("a", "ra"), ("b", "rb")] lastId =
        some ({ content := "rb", sessionId := "s", messageId := "m",
                reasoningContent :=
                  some "# Intermediate Swarm node results\n\n## Agent 1\n\nra" }
              : FinalAnswerData).content) ∧
    (({ content := "rb", sessionId := "s", messageId := "m",
        reasoningContent :=
          some "# Intermediate Swarm node results\n\n## Agent 1\n\nra" }
        : FinalAnswerData).reasoningContent.isSome ↔
      2 ≤ (["a", "b"] : List String).length) ∧
    (∀ priors,
      mapOption (dictGet [("a", "ra"), ("b", "rb")])
        (["a", "b"] : List String).dropLast = some priors →
      2 ≤ (["a", "b"] : List String).length →
      ({ content := "rb", sessionId := "s", messageId := "m",
         reasoningContent :=
           some "# Intermediate Swarm node results\n\n## Agent 1\n\nra" }
          : FinalAnswerData).reasoningContent =
        some (String.intercalate "\n\n" (buildReasoning priors))) :=
  final_answer_composition ["a", "b"] [("a", "ra"), ("b", "rb")] "s" "m"
    { content := "rb", sessionId := "s", messageId := "m",
      reasoningContent :=
        some "# Intermediate Swarm node results\n\n## Agent 1\n\nra" }
    rfl

/-! ## C9 — reference resolution and re-validation -/

/-- What a successful SwarmConfiguration validation guarantees: the value is
returned unchanged, the node set (or reference set) is non-empty, node
names are pairwise distinct (deduplication loses nothing), and when
concrete agents are present the entry agent is among their names. -/
theorem swarm_configuration_validate_ok (c c2 : SwarmConfiguration)
    (h : SwarmConfiguration.validate c = .ok c2) :
    c2 = c ∧
    ¬ (c.agents.isEmpty = true ∧ c.agentReferences.isEmpty = true) ∧
    (c.agents.map (fun a => a.name)).eraseDups.length =
      (c.agents.map (fun a => a.name)).length ∧
    (c.agents ≠ [] →
      (c.agents.map (fun a => a.name)).contains c.entryAgent = true) := by
  simp only [SwarmConfiguration.validate] at h
  split at h
  · exact absurd h (by simp)
  · split at h
    · exact absurd h (by simp)
    · split at h
      · exact absurd h (by simp)
      · rename_i h1 h2 h3
        cases h
        refine ⟨rfl, ?_, ?_, ?_⟩
        · intro hc
          exact h1 (by simp [hc.1, hc.2])
        · have := by simpa using h2
          simpa using this
        · intro hne
          have hem : c.agents.isEmpty = false := by
            simpa [List.isEmpty_iff] using hne
          by_contra hc
          have hcf : (c.agents.map (fun a => a.name)).contains c.entryAgent = false := by
            simpa using hc
          exact h3 (by rw [hem, hcf]; rfl)

/-- C9: parse_configuration never returns a configuration whose agents list
is empty while references remain, and in the references-only case it
resolves every reference in order into a concrete definition, returns a
configuration with the resolved agents and no references, and re-validates
entry-existence and name-uniqueness over the resolved set through the
SwarmConfiguration constructor. -/
theorem references_resolved_and_revalidated :
    (∀ (cfg : SwarmConfiguration)
       (resolver : AgentReference → Except String SwarmAgentDefinition)
       (out : SwarmConfiguration),
      parse_configuration cfg resolver = .ok out →
      ¬ (out.agents = [] ∧ out.agentReferences ≠ [])) ∧
    (∀ (cfg : SwarmConfiguration)
       (resolver : AgentReference → Except String SwarmAgentDefinition)
       (out : SwarmConfiguration),
      cfg.agents = [] → cfg.agentReferences ≠ [] →
      parse_configuration cfg resolver = .ok out →
      mapExcept resolver cfg.agentReferences = .ok out.agents ∧
      out.agentReferences = [] ∧
      out.entryAgent = cfg.entryAgent ∧
      out.agents ≠ [] ∧
      (out.agents.map (fun a => a.name)).contains out.entryAgent = true ∧
      (out.agents.map (fun a => a.name)).eraseDups.length =
        (out.agents.map (fun a => a.name)).length) := by
  constructor
  · intro cfg resolver out h
    simp only [parse_configuration] at h
    split at h
    · cases hm : mapExcept resolver cfg.agentReferences with
      | error e => rw [hm] at h; exact absurd h (by simp)
      | ok loaded =>
        rw [hm] at h
        obtain ⟨heq, -, -, -⟩ := swarm_configuration_validate_ok _ _ h
        subst heq
        rintro ⟨-, hr⟩
        exact hr rfl
    · rename_i hcond
      cases h
      rintro ⟨ha, hr⟩
      rw [Bool.and_eq_true, not_and_or] at hcond
      rcases hcond with hc | hc
      · exact hr (by simpa [List.isEmpty_iff] using hc)
      · exact absurd ha (by simpa [List.isEmpty_iff] using hc)
  · intro cfg resolver out ha hr h
    simp only [parse_configuration] at h
    have hcond : (!cfg.agentReferences.isEmpty && cfg.agents.isEmpty) = true := by
      simp [List.isEmpty_iff, ha, hr]
    rw [if_pos hcond] at h
    cases hm : mapExcept resolver cfg.agentReferences with
    | error e => rw [hm] at h; exact absurd h (by simp)
    | ok loaded =>
      rw [hm] at h
      obtain ⟨heq, -, hdup, hentry⟩ := swarm_configuration_validate_ok _ _ h
      subst heq
      have hlen : loaded.length = cfg.agentReferences.length :=
        mapExcept_length resolver cfg.agentReferences loaded hm
      have hne : loaded ≠ [] := by
        intro hl
        subst hl
        simp at hlen
        exact hr (List.length_eq_zero.mp hlen.symm)
      exact ⟨rfl, rfl, rfl, hne, hentry hne, hdup⟩

/-- Witness for C9: a configuration holding one reference to agent "a" with
entry "a" resolves into a one-agent configuration that passes the
re-validation. -/
theorem references_resolved_witness :
    mapExcept
      (fun r : AgentReference =>
        (.ok { name := r.agentName, instructions := "", modelId := "m" }
          : Except String SwarmAgentDefinition))
      [{ agentName := "a", endpointName := "ep" }] =
      .ok ({ agents := [{ name := "a", instructions := "", modelId := "m" }],
             agentReferences := [], entryAgent := "a" }
          : SwarmConfiguration).agents ∧
    ({ agents := [{ name := "a", instructions := "", modelId := "m" }],
       agentReferences := [], entryAgent := "a" }
      : SwarmConfiguration).agentReferences = [] ∧
    ({ agents := [{ name := "a", instructions := "", modelId := "m" }],
       agentReferences := [], entryAgent := "a" }
      : SwarmConfiguration).entryAgent = "a" ∧
    ({ agents := [{ name := "a", instructions := "", modelId := "m" }],
       agentReferences := [], entryAgent := "a" }
      : SwarmConfiguration).agents ≠ [] ∧
    (({ agents := [{ name := "a", instructions := "", modelId := "m" }],
        agentReferences := [], entryAgent := "a" }
       : SwarmConfiguration).agents.map (fun a => a.name)).contains "a" = true ∧
    (({ agents := [{ name := "a", instructions := "", modelId := "m" }],
        agentReferences := [], entryAgent := "a" }
       : SwarmConfiguration).agents.map (fun a => a.name)).eraseDups.length =
      (({ agents := [{ name := "a", instructions := "", modelId := "m" }],
          agentReferences := [], entryAgent := "a" }
         : SwarmConfiguration).agents.map (fun a => a.name)).length :=
  references_resolved_and_revalidated.2
    { agents := [],
      agentReferences := [{ agentName := "a", endpointName := "ep" }],
      entryAgent := "a" }
    (fun r : AgentReference =>
      (.ok { name := r.agentName, instructions := "", modelId := "m" }
        : Except String SwarmAgentDefinition))
    { agents := [{ name := "a", instructions := "", modelId := "m" }],
      agentReferences := [], entryAgent := "a" }
    rfl (by decide) rfl

/-! ## C10 — totality of the result extractors -/

/-- C10: _extract_final_response is total over the modelled inputs and
follows the documented fallback chain — with a non-empty node_history and a
results entry for the last visited node's id it returns that node's
extracted text; when the history path is unavailable (missing or empty
history, or a failed lookup) it falls back to the last value of the results
map; with no usable results it returns str(swarm_result) — and
_extract_text_from_node_result falls back to str(node_result) /
str(agent_result) the same way on missing attributes, so neither ever
raises. -/
theorem extract_final_response_characterization :
    (∀ (sr : PySwarmResult) (nodes : List PyNode) (lastNode : PyNode)
       (rs : List (String × PyNodeResult)) (nr : PyNodeResult),
      sr.node_history = some nodes → nodes.getLast? = some lastNode →
      sr.results = some rs →
      dictGet rs (lastNode.node_id.getD lastNode.repr) = some nr →
      extract_final_response sr = extract_text_from_node_result nr) ∧
    (∀ (sr : PySwarmResult) (rs : List (String × PyNodeResult))
       (p : String × PyNodeResult),
      (sr.node_history = none ∨ sr.node_history = some []) →
      sr.results = some rs → rs.getLast? = some p →
      extract_final_response sr = extract_text_from_node_result p.snd) ∧
    (∀ (sr : PySwarmResult) (nodes : List PyNode) (lastNode : PyNode)
       (rs : List (String × PyNodeResult)) (p : String × PyNodeResult),
      sr.node_history = some nodes → nodes.getLast? = some lastNode →
      sr.results = some rs →
      dictGet rs (lastNode.node_id.getD lastNode.repr) = none →
      rs.getLast? = some p →
      extract_final_response sr = extract_text_from_node_result p.snd) ∧
    (∀ sr : PySwarmResult, sr.results = none →
      extract_final_response sr = sr.repr) ∧
    (∀ sr : PySwarmResult, sr.results = some [] →
      extract_final_response sr = sr.repr) ∧
    (∀ nr : PyNodeResult, nr.result = none →
      extract_text_from_node_result nr = nr.repr) ∧
    (∀ (nr : PyNodeResult) (ar : PyAgentResult),
      nr.result = some ar → ar.message = none →
      extract_text_from_node_result nr = ar.repr) := by
  refine ⟨?_, ?_, ?_, ?_, ?_, ?_, ?_⟩
  · intro sr nodes lastNode rs nr h1 h2 h3 h4
    simp [extract_final_response, h1, h2, h3, h4]
  · intro sr rs p hh h3 hp
    rcases hh with hh | hh
    · simp [extract_final_response, hh, h3, hp]
    · simp [extract_final_response, hh, h3, hp]
  · intro sr nodes lastNode rs p h1 h2 h3 h4 hp
    simp [extract_final_response, h1, h2, h3, h4, hp]
  · intro sr h
    cases hnh : sr.node_history with
    | none => simp [extract_final_response, hnh, h]
    | some nodes =>
      cases hl : nodes.getLast? with
      | none => simp [extract_final_response, hnh, hl, h]
      | some lastNode => simp [extract_final_response, hnh, hl, h]
  · intro sr h
    cases hnh : sr.node_history with
    | none => simp [extract_final_response, hnh, h]
    | some nodes =>
      cases hl : nodes.getLast? with
      | none => simp [extract_final_response, hnh, hl, h]
      | some lastNode => simp [extract_final_response, hnh, hl, h, dictGet]
  · intro nr h
    simp [extract_text_from_node_result, h]
  · intro nr ar h1 h2
    simp [extract_text_from_node_result, h1, h2]

/-- Witness for C10: a one-node history whose results entry holds a dict
message with a text block extracts that node's text. -/
theorem extract_final_response_witness :
    extract_final_response
      { node_history := some [{ node_id := some "a", repr := "nodeA" }],
        results := some
          [("a", { result := some { message := some (.dict (.blocks [.dictWithText "hello"])),
                                    repr := "ar" },
                   repr := "nr" })],
        repr := "sr" } =
      extract_text_from_node_result
        { result := some { message := some (.dict (.blocks [.dictWithText "hello"])),
                           repr := "ar" },
          repr := "nr" } :=
  extract_final_response_characterization.1
    { node_history := some [{ node_id := some "a", repr := "nodeA" }],
      results := some
        [("a", { result := some { message := some (.dict (.blocks [.dictWithText "hello"])),
                                  repr := "ar" },
                 repr := "nr" })],
      repr := "sr" }
    [{ node_id := some "a", repr := "nodeA" }]
    { node_id := some "a", repr := "nodeA" }
    [("a", { result := some { message := some (.dict (.blocks [.dictWithText "hello"])),
                              repr := "ar" },
             repr := "nr" })]
    { result := some { message := some (.dict (.blocks [.dictWithText "hello"])),
                       repr := "ar" },
      repr := "nr" }
    rfl rfl rfl rfl
